import Mathlib

/-!
Shallow embedding of `src/wizard/partner_import_wizard.py` (PartnerImportWizard).

Modelling conventions:
* A cell value is `Option String`: Python `None` is `none`, a string `s` is `some s`.
  (Spreadsheet cells can in principle hold numbers; every claim under scrutiny
  concerns string cells, so numeric cells are outside the model.)
* A row dictionary (`csv.DictReader` row / the Excel `row_data` dict) is an
  association list with unique keys; `dictInsert` gives Python-dict overwrite
  semantics, `rowGet`/`rowGetD` give `row.get(k)` / `row.get(k, '')`.
* The Odoo environment (`res.partner` / `res.country` search, create, write) is an
  `ExternalOps σ` record over an abstract store state `σ`; each call returns
  `Except String` because the Python calls can raise (caught per row, line 183).
  `storeOps` instantiates it with a concrete never-raising list-backed store.
* File bytes are `List (Fin 256)` (the content after `base64.b64decode`, which is
  transport and not modelled).  `openpyxl.load_workbook` is an external fallible
  loader parameter producing a first-sheet view (`ExcelSheet`).
* Python string formatting `%d`/`%s` is string concatenation with `toString`;
  `%s` of `None` prints `"None"` (`pyStr`).
-/

/-- A Python cell value: `none` is Python `None`, `some s` a string. -/
abbrev CellVal := Option String

/-- The empty string and newline literals used throughout the messages. -/
def emptyStr : String := ""

def nl : String := "\n"

/-- Python truthiness of a cell value: `None` and `""` are falsy, any other string truthy. -/
def truthy : CellVal → Bool
  | none => false
  | some s => if s = "" then false else true

/-- `v if v is not None else default`-style extraction: the string under `some`, else `""`.
Used only where the source guarantees the value is a truthy string (e.g. `row['email']`). -/
def strOf (v : CellVal) : String :=
  v.getD emptyStr

/-- The literal Python `str(None)` as printed by `%s`. -/
def noneLit : String := "None"

/-- How Python `"%s" % v` renders a cell value: `None` prints as `"None"`. -/
def pyStr : CellVal → String
  | none => noneLit
  | some s => s

/-- A decoded row: dict from lower-ish header key to cell value (unique keys). -/
abbrev RawRow := List (String × CellVal)

/-- Python dict assignment `d[k] = v`: overwrite an existing key, else append. -/
def dictInsert (d : RawRow) (k : String) (v : CellVal) : RawRow :=
  if d.any (fun p => p.1 = k) then
    d.map (fun p => if p.1 = k then (k, v) else p)
  else d ++ [(k, v)]

/-- Python `row.get(k)`: `None` when the key is absent. -/
def rowGet (d : RawRow) (k : String) : CellVal :=
  match d.find? (fun p => p.1 = k) with
  | some p => p.2
  | none => none

/-- Python `row.get(k, '')`: `""` when the key is absent (but a stored `None` stays `None`). -/
def rowGetD (d : RawRow) (k : String) : CellVal :=
  match d.find? (fun p => p.1 = k) with
  | some p => p.2
  | none => some emptyStr

/-- Line 151: `any(val for val in row.values() if val not in (None, ""))`.
A value passes the filter and is truthy exactly when it is a non-empty string. -/
def rowNonBlank (d : RawRow) : Bool :=
  d.any (fun p => truthy p.2)

/-- The column keys the wizard reads (source lines 154-167). -/
def kName : String := "name"

def kEmail : String := "email"

def kPhone : String := "phone"

def kStreet : String := "street"

def kCity : String := "city"

def kZip : String := "zip"

def kCountry : String := "country"

/-- `import_mode` selection field (lines 22-26). -/
inductive ImportMode where
  | create
  | update
  | both
  deriving DecidableEq

/-- One `res.partner` record of the external store. Odoo `Char` fields hold a string
or `False` (empty), hence `Option String`; `country_id` is a many2one id or `False`. -/
structure Partner where
  id : Nat
  name : CellVal
  email : CellVal
  phone : CellVal
  street : CellVal
  city : CellVal
  zip : CellVal
  country_id : Option Nat
  deriving DecidableEq

/-- The `partner_vals` dict built at lines 160-168. -/
structure PartnerVals where
  name : String
  email : String
  phone : CellVal
  street : CellVal
  city : CellVal
  zip : CellVal
  country_id : Option Nat
  deriving DecidableEq

/-- External collaborator calls of one import run, over store state `σ`.
Each may raise (modelled as `Except.error` carrying `str(e)`):
`searchPartner` is `env['res.partner'].search([('email','=',email)], limit=1)`,
`searchCountry` is `env['res.country'].search([('name','=',name)], limit=1)`
returning the `(id, name)` pair of the first match,
`createPartner` / `writePartner` are `create(partner_vals)` / `partner.write(partner_vals)`. -/
structure ExternalOps (σ : Type) where
  searchPartner : σ → String → Except String (Option Partner)
  searchCountry : σ → String → Except String (Option (Nat × String))
  createPartner : σ → PartnerVals → Except String σ
  writePartner : σ → Nat → PartnerVals → Except String σ

/-- `_get_country` (lines 237-241): falsy name gives `False`; otherwise search and
take `country.id if country else False`. -/
def getCountry {σ : Type} (ops : ExternalOps σ) (s : σ) (countryName : CellVal) :
    Except String (Option Nat) :=
  if truthy countryName then
    (ops.searchCountry s (strOf countryName)).map (fun oc => oc.map (fun c => c.1))
  else Except.ok none

/-- `partner_vals` (lines 160-168), with the already-resolved `country_id`. -/
def mkVals (row : RawRow) (countryId : Option Nat) : PartnerVals :=
  { name := strOf (rowGet row kName)
    email := strOf (rowGet row kEmail)
    phone := rowGet row kPhone
    street := rowGet row kStreet
    city := rowGet row kCity
    zip := rowGet row kZip
    country_id := countryId }

/-- What one loop iteration of `_process_rows` (lines 149-184) does to the tallies:
skip a blank row, bump `created` or `updated`, or append one message to `errors`. -/
inductive RowOutcome where
  | blank
  | created
  | updated
  | skipped (msg : String)
  | failed (msg : String)
  deriving DecidableEq

/-- `"Row %d"` prefix shared by the three per-row messages. -/
def rowPrefix (idx : Nat) : String :=
  "Row " ++ toString idx

/-- Line 155-157: `"Row %d: Missing required field - Name: %s, Email: %s" % (idx, row.get('name', ''), row.get('email', ''))`. -/
def missingMsg (idx : Nat) (row : RawRow) : String :=
  rowPrefix idx ++ ": Missing required field - Name: " ++ pyStr (rowGetD row kName)
    ++ ", Email: " ++ pyStr (rowGetD row kEmail)

/-- Line 179-181: `"Row %d: Skipped - %s (Import mode doesn't allow this operation)"`. -/
def skipMsg (idx : Nat) (email : String) : String :=
  rowPrefix idx ++ ": Skipped - " ++ email ++ " (Import mode doesn\x27t allow this operation)"

/-- Line 184: `"Row %d: Error processing - %s" % (idx, str(e))`. -/
def errorRowMsg (idx : Nat) (e : String) : String :=
  rowPrefix idx ++ ": Error processing - " ++ e

/-- The body of the `for idx, row in enumerate(rows, start=2)` loop (lines 149-184):
blank filter, required-field validation, country resolution, email lookup and the
mode-dependent create/update/skip decision, with every raising call converted to a
`failed` outcome carrying `errorRowMsg` and an unchanged store. -/
def processRow {σ : Type} (ops : ExternalOps σ) (mode : ImportMode) (s : σ) (idx : Nat)
    (row : RawRow) : σ × RowOutcome :=
  if !(rowNonBlank row) then (s, RowOutcome.blank)
  else if !(truthy (rowGet row kName)) || !(truthy (rowGet row kEmail)) then
    (s, RowOutcome.failed (missingMsg idx row))
  else
    match getCountry ops s (rowGet row kCountry) with
    | Except.error e => (s, RowOutcome.failed (errorRowMsg idx e))
    | Except.ok cid =>
      let vals := mkVals row cid
      let email := strOf (rowGet row kEmail)
      match ops.searchPartner s email with
      | Except.error e => (s, RowOutcome.failed (errorRowMsg idx e))
      | Except.ok (some partner) =>
        if mode = ImportMode.update ∨ mode = ImportMode.both then
          match ops.writePartner s partner.id vals with
          | Except.error e => (s, RowOutcome.failed (errorRowMsg idx e))
          | Except.ok s2 => (s2, RowOutcome.updated)
        else (s, RowOutcome.skipped (skipMsg idx email))
      | Except.ok none =>
        if mode = ImportMode.create ∨ mode = ImportMode.both then
          match ops.createPartner s vals with
          | Except.error e => (s, RowOutcome.failed (errorRowMsg idx e))
          | Except.ok s2 => (s2, RowOutcome.created)
        else (s, RowOutcome.skipped (skipMsg idx email))

/-- The whole loop: thread the store, number rows from `idx`, collect outcomes in order. -/
def processRowsAux {σ : Type} (ops : ExternalOps σ) (mode : ImportMode) :
    σ → Nat → List RawRow → σ × List RowOutcome
  | s, _, [] => (s, [])
  | s, idx, row :: rest =>
    let p := processRow ops mode s idx row
    let r := processRowsAux ops mode p.1 (idx + 1) rest
    (r.1, p.2 :: r.2)

/-- The run tallies of `_process_rows`: `created`, `updated` and the `errors` list. -/
structure RunAcc where
  created : Nat
  updated : Nat
  errors : List String
  deriving DecidableEq

/-- Effect of one outcome on the tallies (exactly the loop's `+= 1` / `errors.append`). -/
def stepAcc (acc : RunAcc) (o : RowOutcome) : RunAcc :=
  match o with
  | RowOutcome.blank => acc
  | RowOutcome.created => { acc with created := acc.created + 1 }
  | RowOutcome.updated => { acc with updated := acc.updated + 1 }
  | RowOutcome.skipped m => { acc with errors := acc.errors ++ [m] }
  | RowOutcome.failed m => { acc with errors := acc.errors ++ [m] }

/-- Tallies of a whole outcome list, starting from zero. -/
def runAcc (outs : List RowOutcome) : RunAcc :=
  outs.foldl stepAcc { created := 0, updated := 0, errors := [] }

/-- Lines 187-191: `"Import completed: %(created)d created, %(updated)d updated"`. -/
def baseMessage (created updated : Nat) : String :=
  "Import completed: " ++ toString created ++ " created, " ++ toString updated ++ " updated"

/-- The displayed notification: the fields of the `display_notification` params that the
claims are about (the constant `tag`/`next` plumbing is omitted). `ntype` is the
notification severity `'warning'` / `'success'`. -/
structure Notification where
  title : String
  message : String
  sticky : Bool
  ntype : String
  deriving DecidableEq

/-- Severity literals of lines 208 and 222. -/
def warningType : String := "warning"

def successType : String := "success"

/-- Lines 193-227: error branch shows the first 3 messages, appends
`"\n...and %d more errors"` when more than 3 exist, warning and sticky;
otherwise a plain non-sticky success message. -/
def buildNotification (created updated : Nat) (errors : List String) : Notification :=
  if errors.isEmpty then
    { title := "Import Successful"
      message := baseMessage created updated
      sticky := false
      ntype := successType }
  else
    let errorCount := errors.length
    let samples0 := String.intercalate nl (errors.take 3)
    let samples :=
      if 3 < errorCount then samples0 ++ "\n...and " ++ toString (errorCount - 3) ++ " more errors"
      else samples0
    { title := "Import Completed with Errors"
      message := baseMessage created updated ++ "\n\n" ++ "Errors encountered: "
        ++ toString errorCount ++ "\n" ++ samples
      sticky := true
      ntype := warningType }

/-- The `"Errors:\n"` header of the logged error block (line 232). -/
def errorsHeader : String := "Errors:\n"

/-- Lines 230-233: the full operational log line, summary plus every message. -/
def logMessage (created updated : Nat) (errors : List String) : String :=
  "Partner Import Results:\n" ++ baseMessage created updated ++ nl
    ++ (if errors.isEmpty then emptyStr else errorsHeader ++ String.intercalate nl errors)

/-- `_process_rows` (lines 143-235): run the loop over the decoded rows, then build
the notification and the log text from the tallies.  Returns the final store state
alongside the notification and the logged string. -/
def processRows {σ : Type} (ops : ExternalOps σ) (mode : ImportMode) (s : σ)
    (rows : List RawRow) : σ × Notification × String :=
  let r := processRowsAux ops mode s 2 rows
  let acc := runAcc r.2
  (r.1, buildNotification acc.created acc.updated acc.errors,
    logMessage acc.created acc.updated acc.errors)

/-- A concrete, never-raising external store: a partner table, a country table and a
fresh-id counter. -/
structure Store where
  partners : List Partner
  countries : List (Nat × String)
  nextId : Nat
  deriving DecidableEq

/-- `create(partner_vals)` on the concrete store: append a fresh record. -/
def createInStore (st : Store) (v : PartnerVals) : Store :=
  { st with
    partners := st.partners ++ [{
      id := st.nextId
      name := some v.name
      email := some v.email
      phone := v.phone
      street := v.street
      city := v.city
      zip := v.zip
      country_id := v.country_id }]
    nextId := st.nextId + 1 }

/-- `partner.write(partner_vals)` on the concrete store: overwrite every one of the
seven mapped fields of the record(s) with that id. -/
def writeInStore (st : Store) (pid : Nat) (v : PartnerVals) : Store :=
  { st with
    partners := st.partners.map (fun q =>
      if q.id = pid then
        { q with
          name := some v.name
          email := some v.email
          phone := v.phone
          street := v.street
          city := v.city
          zip := v.zip
          country_id := v.country_id }
      else q) }

/-- `search([('email','=',email)], limit=1)` on the concrete store: first match. -/
def findPartner (st : Store) (email : String) : Option Partner :=
  st.partners.find? (fun p => p.email = some email)

/-- `res.country` search by exact name, first match. -/
def findCountry (st : Store) (n : String) : Option (Nat × String) :=
  st.countries.find? (fun c => c.2 = n)

/-- The deterministic instantiation of the external calls by the concrete store. -/
def storeOps : ExternalOps Store :=
  { searchPartner := fun st e => Except.ok (findPartner st e)
    searchCountry := fun st n => Except.ok (findCountry st n)
    createPartner := fun st v => Except.ok (createInStore st v)
    writePartner := fun st pid v => Except.ok (writeInStore st pid v) }

/-- `_get_country` through the concrete store, as a pure function. -/
def storeCountryId (st : Store) (countryName : CellVal) : Option Nat :=
  if truthy countryName then (findCountry st (strOf countryName)).map (fun c => c.1)
  else none

/-- A file byte (content after base64 decoding). -/
abbrev Byte := Fin 256

/-- The Latin-1 / ISO-8859-1 decoder: every byte is the character with that code
point, so it is total.  Python's `latin-1` and `iso-8859-1` are the same codec. -/
def latin1Decode (bs : List Byte) : String :=
  String.mk (bs.map (fun b => Char.ofNat b.val))

/-- Windows-1252 mapping of the 0x80-0x9F range: `(byte, code point)` pairs.
Bytes 0x81, 0x8D, 0x8F, 0x90, 0x9D are undefined and make the codec fail. -/
def cp1252Table : List (Nat × Nat) :=
  [(0x80, 0x20AC), (0x82, 0x201A), (0x83, 0x0192), (0x84, 0x201E), (0x85, 0x2026),
   (0x86, 0x2020), (0x87, 0x2021), (0x88, 0x02C6), (0x89, 0x2030), (0x8A, 0x0160),
   (0x8B, 0x2039), (0x8C, 0x0152), (0x8E, 0x017D), (0x91, 0x2018), (0x92, 0x2019),
   (0x93, 0x201C), (0x94, 0x201D), (0x95, 0x2022), (0x96, 0x2013), (0x97, 0x2014),
   (0x98, 0x02DC), (0x99, 0x2122), (0x9A, 0x0161), (0x9B, 0x203A), (0x9C, 0x0153),
   (0x9E, 0x017E), (0x9F, 0x0178)]

/-- Decode one byte as Windows-1252. -/
def cp1252DecodeByte (b : Byte) : Option Char :=
  if b.val < 0x80 ∨ 0xA0 ≤ b.val then some (Char.ofNat b.val)
  else (cp1252Table.find? (fun p => p.1 = b.val)).map (fun p => Char.ofNat p.2)

/-- Decode a byte list as Windows-1252 (fails on the five undefined bytes). -/
def cp1252Decode : List Byte → Option (List Char)
  | [] => some []
  | b :: rest =>
    match cp1252DecodeByte b, cp1252Decode rest with
    | some c, some cs => some (c :: cs)
    | _, _ => none

/-- Encode one character as Windows-1252 (the inverse mapping; spec-side constructor
for the encoding-fallback claim: the program itself never encodes). -/
def cp1252EncodeChar (c : Char) : Option Byte :=
  if h : c.toNat < 0x80 then some ⟨c.toNat, by omega⟩
  else if h2 : 0xA0 ≤ c.toNat ∧ c.toNat < 0x100 then some ⟨c.toNat, by omega⟩
  else (cp1252Table.find? (fun p => p.2 = c.toNat)).map
    (fun p => ⟨p.1 % 256, Nat.mod_lt p.1 (by omega)⟩)

/-- Encode a character list as Windows-1252. -/
def cp1252EncodeChars : List Char → Option (List Byte)
  | [] => some []
  | c :: cs =>
    match cp1252EncodeChar c, cp1252EncodeChars cs with
    | some b, some bs => some (b :: bs)
    | _, _ => none

/-- Encode a string as Windows-1252. -/
def cp1252EncodeStr (s : String) : Option (List Byte) :=
  cp1252EncodeChars s.data

/-- Encode one Unicode scalar value as UTF-8 (1-4 bytes; total on valid `Char`s). -/
def utf8EncodeChar (c : Char) : List Byte :=
  let n := c.toNat
  if h1 : n < 0x80 then [⟨n, by omega⟩]
  else if h2 : n < 0x800 then
    [⟨0xC0 + n / 64, by omega⟩, ⟨0x80 + n % 64, by omega⟩]
  else if h3 : n < 0x10000 then
    [⟨0xE0 + n / 4096, by omega⟩, ⟨0x80 + n / 64 % 64, by omega⟩, ⟨0x80 + n % 64, by omega⟩]
  else if h4 : n < 0x110000 then
    [⟨0xF0 + n / 262144, by omega⟩, ⟨0x80 + n / 4096 % 64, by omega⟩,
     ⟨0x80 + n / 64 % 64, by omega⟩, ⟨0x80 + n % 64, by omega⟩]
  else []

/-- UTF-8 encode a character list. -/
def utf8EncodeChars : List Char → List Byte
  | [] => []
  | c :: cs => utf8EncodeChar c ++ utf8EncodeChars cs

/-- UTF-8 encode a string (spec-side constructor for the encoding claims). -/
def utf8EncodeStr (s : String) : List Byte :=
  utf8EncodeChars s.data

/-- One step of strict UTF-8 decoding as Python's `utf-8` codec: given a leading
byte and the remaining bytes, the decoded code point and how many continuation
bytes it consumed; rejects stray continuation bytes, overlong encodings,
surrogates and values beyond U+10FFFF. -/
def utf8DecodeStep (b1 : Byte) (rest : List Byte) : Option (Nat × Nat) :=
  if b1.val < 0x80 then some (b1.val, 0)
  else if b1.val < 0xC2 then none
  else if b1.val < 0xE0 then
    match rest with
    | b2 :: _ =>
      if 0x80 ≤ b2.val ∧ b2.val < 0xC0 then
        some ((b1.val - 0xC0) * 64 + (b2.val - 0x80), 1)
      else none
    | [] => none
  else if b1.val < 0xF0 then
    match rest with
    | b2 :: b3 :: _ =>
      if (0x80 ≤ b2.val ∧ b2.val < 0xC0) ∧ (0x80 ≤ b3.val ∧ b3.val < 0xC0) then
        let cp := (b1.val - 0xE0) * 4096 + (b2.val - 0x80) * 64 + (b3.val - 0x80)
        if 0x800 ≤ cp ∧ ¬(0xD800 ≤ cp ∧ cp ≤ 0xDFFF) then some (cp, 2) else none
      else none
    | _ => none
  else if b1.val < 0xF5 then
    match rest with
    | b2 :: b3 :: b4 :: _ =>
      if (0x80 ≤ b2.val ∧ b2.val < 0xC0) ∧ (0x80 ≤ b3.val ∧ b3.val < 0xC0)
          ∧ (0x80 ≤ b4.val ∧ b4.val < 0xC0) then
        let cp := (b1.val - 0xF0) * 262144 + (b2.val - 0x80) * 4096
          + (b3.val - 0x80) * 64 + (b4.val - 0x80)
        if 0x10000 ≤ cp ∧ cp ≤ 0x10FFFF then some (cp, 3) else none
      else none
    | _ => none
  else none

/-- Strict UTF-8 decoding, structurally recursive on a fuel bound (one unit of fuel
per decoded character suffices, since every character consumes the leading byte). -/
def utf8DecodeAux : Nat → List Byte → Option (List Char)
  | _, [] => some []
  | 0, _ :: _ => none
  | fuel + 1, b1 :: rest =>
    match utf8DecodeStep b1 rest with
    | some (cp, k) => (utf8DecodeAux fuel (rest.drop k)).map (fun cs => Char.ofNat cp :: cs)
    | none => none

/-- Strict UTF-8 decoding of a whole byte list. -/
def utf8DecodeChars (bs : List Byte) : Option (List Char) :=
  utf8DecodeAux bs.length bs

/-- The UTF-8 byte-order mark. -/
def bomBytes : List Byte := [0xEF, 0xBB, 0xBF]

/-- Python's `utf-8-sig` codec (line 90): strip a leading BOM, then strict UTF-8. -/
def utf8SigDecode (bs : List Byte) : Option String :=
  let stripped := if bs.take 3 = bomBytes then bs.drop 3 else bs
  (utf8DecodeChars stripped).map String.mk

/-- Try decoders in order, returning the first success (the `for encoding in [...]`
loop of lines 93-98). -/
def firstSuccess : List (List Byte → Option String) → List Byte → Option String
  | [], _ => none
  | f :: fs, bs =>
    match f bs with
    | some s => some s
    | none => firstSuccess fs bs

/-- Total-decoder wrappers for the fallback list `['latin-1', 'iso-8859-1', 'cp1252']`. -/
def latin1DecodeOpt (bs : List Byte) : Option String :=
  some (latin1Decode bs)

def iso88591DecodeOpt (bs : List Byte) : Option String :=
  latin1DecodeOpt bs

def cp1252DecodeOpt (bs : List Byte) : Option String :=
  (cp1252Decode bs).map String.mk

/-- Line 100-103 error text (the `UserError` message raised when all codecs fail). -/
def msgCouldNotDecode : String :=
  "Could not decode the file. Please ensure it\x27s a valid CSV file with UTF-8, Latin-1, or Windows-1252 encoding."

/-- Lines 88-103: `utf-8-sig` first, then the fixed fallback list, else the
`UserError`. -/
def decodeCsvText (bs : List Byte) : Except String String :=
  match utf8SigDecode bs with
  | some s => Except.ok s
  | none =>
    match firstSuccess [latin1DecodeOpt, iso88591DecodeOpt, cp1252DecodeOpt] bs with
    | some s => Except.ok s
    | none => Except.error msgCouldNotDecode

/-- Split a character list at every occurrence of `sep` (never returns `[]`). -/
def splitChars (sep : Char) : List Char → List (List Char)
  | [] => [[]]
  | c :: rest =>
    match splitChars sep rest with
    | [] => [[c]]
    | g :: gs => if c = sep then [] :: g :: gs else (c :: g) :: gs

/-- The lines `csv.reader` sees when iterating `io.StringIO(file_string)`: split at
newlines; a trailing newline does not open a final empty line. -/
def csvLines (s : String) : List (List Char) :=
  let ls := splitChars '\n' s.data
  match ls.getLast? with
  | some l => if l.isEmpty then ls.dropLast else ls
  | none => ls

/-- One parsed CSV record: an empty line is the empty record `[]`, otherwise the
comma-separated fields.  This models Python's `csv` default dialect for input
without quote characters (none of the inputs under the claims are quoted). -/
def csvRow (line : List Char) : List String :=
  if line.isEmpty then [] else (splitChars ',' line).map (fun cs => String.mk cs)

/-- `csv.DictReader` row construction: zip the header keys with the record's fields
by position; a missing field is `restval = None`.  Fields beyond the header, which
Python stores as a list under the non-string `restkey = None`, are dropped: they
are invisible to the string-keyed `row.get` calls, though Python's
`row.values()` blank-row check at line 151 would see them — a corner no theorem
below depends on. -/
def zipRowDict (headers : List String) (fields : List String) : RawRow :=
  (List.range headers.length).foldl
    (fun d i => dictInsert d (headers.getD i emptyStr) (fields.get? i))
    []

/-- `csv.DictReader(file_io)` (lines 105-106): first line is the header (used
verbatim as keys), blank records are skipped, every other record becomes a dict. -/
def csvDicts (text : String) : List RawRow :=
  match csvLines text with
  | [] => []
  | headerLine :: dataLines =>
    let headers := csvRow headerLine
    ((dataLines.map csvRow).filter (fun r => !r.isEmpty)).map (zipRowDict headers)

/-- The first worksheet as `_process_excel` reads it: the header row's cell values
(`sheet[1]`) and the remaining rows' cell values (`iter_rows(min_row=2)`). -/
structure ExcelSheet where
  headerCells : List CellVal
  dataRows : List (List CellVal)
  deriving DecidableEq

/-- Lines 123-125: `str(cell.value).lower() if cell.value else ''` per header cell.
(`.lower()` is modelled for ASCII letters, which covers the mapped column names.) -/
def excelHeaders (cells : List CellVal) : List String :=
  cells.map (fun c =>
    match c with
    | some s => if s = "" then emptyStr else String.mk (s.data.map Char.toLower)
    | none => "")

/-- Lines 129-132: build `row_data` by zipping header keys to cell values by column
index, skipping columns whose header is blank or beyond the header row. -/
def excelRowData (headers : List String) (cells : List CellVal) : RawRow :=
  (List.range cells.length).foldl
    (fun d i =>
      if i < headers.length ∧ headers.getD i emptyStr ≠ "" then
        dictInsert d (headers.getD i emptyStr) (cells.getD i none)
      else d)
    []

/-- Lines 127-134: keep only rows with some value outside `(None, "")`. -/
def excelDicts (sheet : ExcelSheet) : List RawRow :=
  let headers := excelHeaders sheet.headerCells
  (sheet.dataRows.map (excelRowData headers)).filter rowNonBlank

/-- `file_type` selection (lines 27-30). -/
inductive FileType where
  | csv
  | xlsx
  deriving DecidableEq

/-- The recognized filename suffixes. -/
def xlsxSuffix : String := ".xlsx"

def csvSuffix : String := ".csv"

/-- Python `file_name.lower().endswith(suffix)` on ASCII filenames. -/
def lowerEndsWith (s : String) (suffix : String) : Bool :=
  List.isSuffixOf suffix.data (s.data.map Char.toLower)

/-- `_compute_file_type` (lines 32-43): `.xlsx` / `.csv` by case-insensitive suffix,
`False` (here `none`) for any other non-empty name, and the `'csv'` default when
`file_name` is falsy. -/
def computeFileType (fileName : CellVal) : Option FileType :=
  if truthy fileName then
    if lowerEndsWith (strOf fileName) xlsxSuffix then some FileType.xlsx
    else if lowerEndsWith (strOf fileName) csvSuffix then some FileType.csv
    else none
  else some FileType.csv

/-- Python `file_name.split('.')[-1]` (line 62). -/
def lastDotPart (s : String) : String :=
  match (splitChars '.' s.data).getLast? with
  | some l => String.mk l
  | none => ""

/-- Message fragments of the fatal `UserError`s in `process_file` and the two
decoder wrappers. -/
def msgUploadFile : String := "Please upload a file."

def msgUnsupportedPre : String := "Unsupported file format \x27"

def msgUnsupportedPost : String := "\x27. Please upload a CSV or Excel (XLSX) file."

def msgNeedOpenpyxl : String :=
  "Excel import requires the openpyxl library. Please install it with: pip install openpyxl"

def msgFailedCsvPre : String := "Failed to process CSV file: "

def msgInvalidExcelPre : String :=
  "Invalid Excel file. Please ensure it\x27s a valid XLSX file. Error: "

def msgFailedFilePre : String := "Failed to process file: "

/-- `_process_csv` (lines 85-114) in the simple all-rows-at-once form used by the
claims about successful runs: decode the text (a decoding `UserError` is caught by
the function's own `except Exception` and re-wrapped, lines 113-114), parse the
dicts and run the rows.  The `except csv.Error` branch (lines 109-112) concerns
internal errors of Python's `csv` module raised lazily mid-iteration; that fatal
path, invisible here, is modelled faithfully by `processCsvLazy` below. -/
def processCsv {σ : Type} (ops : ExternalOps σ) (mode : ImportMode) (s : σ)
    (content : List Byte) : Except String (σ × Notification × String) :=
  match decodeCsvText content with
  | Except.error msg => Except.error (msgFailedCsvPre ++ msg)
  | Except.ok text => Except.ok (processRows ops mode s (csvDicts text))

/-- `_process_excel` (lines 116-141): the fallible `loadWorkbook` stands for
`openpyxl.load_workbook` plus the sheet/header reading inside the same `try`;
any failure becomes the `Invalid Excel file` `UserError`. -/
def processExcel {σ : Type} (ops : ExternalOps σ)
    (loadWorkbook : List Byte → Except String ExcelSheet) (mode : ImportMode) (s : σ)
    (content : List Byte) : Except String (σ × Notification × String) :=
  match loadWorkbook content with
  | Except.error e => Except.error (msgInvalidExcelPre ++ e)
  | Except.ok sheet => Except.ok (processRows ops mode s (excelDicts sheet))

/-- `process_file` (lines 53-83): reject a falsy `file_name`, reject an unrecognized
extension, reject `.xlsx` without openpyxl, then dispatch on the file type; any
exception out of the processing call (the per-path `UserError`s included) is
re-wrapped as `"Failed to process file: %s"`. -/
def processFile {σ : Type} (ops : ExternalOps σ) (excelSupport : Bool)
    (loadWorkbook : List Byte → Except String ExcelSheet) (mode : ImportMode) (s : σ)
    (fileName : CellVal) (content : List Byte) :
    Except String (σ × Notification × String) :=
  if !(truthy fileName) then Except.error msgUploadFile
  else
    match computeFileType fileName with
    | none =>
      Except.error (msgUnsupportedPre ++ lastDotPart (strOf fileName) ++ msgUnsupportedPost)
    | some ft =>
      if ft = FileType.xlsx ∧ excelSupport = false then Except.error msgNeedOpenpyxl
      else
        match
          (match ft with
           | FileType.csv => processCsv ops mode s content
           | FileType.xlsx => processExcel ops loadWorkbook mode s content) with
        | Except.error e => Except.error (msgFailedFilePre ++ e)
        | Except.ok r => Except.ok r

/-! ### Observation functions and concrete fixtures used by the theorems -/

/-- Is an outcome `created`? (spec-side counting of `RowOutcome.Created`). -/
def isCreatedOutcome : RowOutcome → Bool
  | RowOutcome.created => true
  | _ => false

/-- Is an outcome `updated`? -/
def isUpdatedOutcome : RowOutcome → Bool
  | RowOutcome.updated => true
  | _ => false

/-- The error/skip message carried by an outcome, if any. -/
def outcomeMsg : RowOutcome → Option String
  | RowOutcome.skipped m => some m
  | RowOutcome.failed m => some m
  | _ => none

/-- An empty concrete store. -/
def store0 : Store := { partners := [], countries := [], nextId := 1 }

/-- An existing partner with every optional field populated, and a store holding it. -/
def partnerBob : Partner :=
  { id := 7
    name := some ("Bob Senior")
    email := some ("b@x.com")
    phone := some ("123")
    street := some ("Old street")
    city := some ("Old town")
    zip := some ("999")
    country_id := some 3 }

def store1 : Store := { partners := [partnerBob], countries := [(3, "France")], nextId := 8 }

/-- A validated row with only the two required columns. -/
def rowAlice : RawRow := [(kName, some ("Alice")), (kEmail, some ("a@x.com"))]

/-- A validated row matching `partnerBob`'s email, with no optional columns. -/
def rowBobUpdate : RawRow := [(kName, some ("Bob")), (kEmail, some ("b@x.com"))]

/-- A non-blank row with an empty email (validation failure). -/
def rowNoEmail : RawRow := [(kName, some ("Bob")), (kEmail, some emptyStr)]

/-- The spec's §8 scenario as CSV text: header, a valid row, an empty-field blank
row (the line `,`), and a row with a missing email. -/
def scenarioCsv : String := "name,email\nAlice,a@x.com\n,\nBob,\n"

/-- The same scenario as the Excel path sees it: the blank data row is a row of
`None` cells at visible line 3, `Bob` at visible line 4. -/
def scenarioSheet : ExcelSheet :=
  { headerCells := [some ("name"), some ("email")]
    dataRows := [[some ("Alice"), some ("a@x.com")], [none, none], [some ("Bob"), some emptyStr]] }

def row3msg : String := "Row 3: Missing required field - Name: Bob, Email: "

def row4msg : String := "Row 4: Missing required field - Name: Bob, Email: "

/-- One-column CSV text holding the one cp1252-only character `€` (U+20AC). -/
def euroText : String := "name\n€"

/-- Its Windows-1252 encoding: `€` is the single byte `0x80`. -/
def euroBytes : List Byte := [110, 97, 109, 101, 10, 128]

/-- What the wizard actually decodes those bytes to: Latin-1 maps `0x80` to the
control character U+0080, not to `€`. -/
def latinEuroText : String :=
  String.mk [Char.ofNat 110, Char.ofNat 97, Char.ofNat 109, Char.ofNat 101,
    Char.ofNat 10, Char.ofNat 128]

/-- A CSV text whose one non-ASCII character `é` (U+00E9) lies in the Latin-1
range, where Windows-1252 and Latin-1 agree. -/
def joseText : String := "name,email\nJosé,j@x.com"

/-- Its Windows-1252 (= Latin-1) encoding; `é` is byte `0xE9 = 233`. -/
def joseBytes : List Byte :=
  [110, 97, 109, 101, 44, 101, 109, 97, 105, 108, 10, 74, 111, 115, 233, 44,
   106, 64, 120, 46, 99, 111, 109]

/-- Failure details raised by the concrete failing collaborators below. -/
def badZipMsg : String := "bad zip"

def boomMsg : String := "boom"

/-- A workbook loader that always fails (a structurally corrupt `.xlsx`). -/
def badLoad : List Byte → Except String ExcelSheet :=
  fun _ => Except.error badZipMsg

/-- A partner search that always raises (an external failure during row processing). -/
def failingSearchOps : ExternalOps Store :=
  { storeOps with searchPartner := fun _ _ => Except.error boomMsg }

/-- Concrete filenames for the dispatch theorems. -/
def xlsxName : String := "a.xlsx"

def csvName : String := "a.csv"

def txtName : String := "data.txt"

/-- Five copies of the invalid row: five row-local errors in one run. -/
def fiveBadRows : List RawRow := [rowNoEmail, rowNoEmail, rowNoEmail, rowNoEmail, rowNoEmail]

/-- The `csv` module as an external collaborator (C code, like `openpyxl`): for a
decoded text, the dict rows the lazy `DictReader` yields in order, and `some e`
when iterating past them raises a `csv.Error` with detail `e` — Python raises these
mid-iteration, e.g. `field larger than field limit (131072)` for an oversized field
or a carriage return inside an unquoted field.  `none` means the reader finishes
normally.  The embedded total parse `csvDicts` is the never-raising instance
(`totalReader` below). -/
abbrev ExternalCsvReader := String → List RawRow × Option String

/-- The `for` loop of `_process_rows` over the lazy reader output: every yielded row
is processed first (its writes land in the store); then a reader exception — raised
by the `for` statement's implicit `next()`, which sits outside the per-row `try` of
lines 150/183 — propagates out of `_process_rows` before the notification is built.
Returns the store as the loop left it either way (in the source the external store
keeps the earlier rows' writes when the exception aborts the call). -/
def processRowsLazy {σ : Type} (ops : ExternalOps σ) (mode : ImportMode) (s : σ)
    (stream : List RawRow × Option String) : σ × Except String (Notification × String) :=
  let r := processRowsAux ops mode s 2 stream.1
  match stream.2 with
  | some e => (r.1, Except.error e)
  | none =>
    let acc := runAcc r.2
    (r.1, Except.ok (buildNotification acc.created acc.updated acc.errors,
      logMessage acc.created acc.updated acc.errors))

/-- Line 110-112: `"Invalid CSV file format. Please check the file structure. Error: %s"`. -/
def msgInvalidCsvPre : String :=
  "Invalid CSV file format. Please check the file structure. Error: "

/-- `_process_csv` (lines 85-114) with the lazy reader made explicit and the store
state kept observable on a fatal error: text decoding first (a decoding `UserError`
is re-wrapped by the function's own `except Exception`, lines 113-114), then the
loop over the reader; a `csv.Error` escaping `_process_rows` is wrapped by the
`except csv.Error` clause at lines 109-112. -/
def processCsvLazy {σ : Type} (ops : ExternalOps σ) (reader : ExternalCsvReader)
    (mode : ImportMode) (s : σ) (content : List Byte) :
    σ × Except String (Notification × String) :=
  match decodeCsvText content with
  | Except.error msg => (s, Except.error (msgFailedCsvPre ++ msg))
  | Except.ok text =>
    let r := processRowsLazy ops mode s (reader text)
    match r.2 with
    | Except.error e => (r.1, Except.error (msgInvalidCsvPre ++ e))
    | Except.ok out => (r.1, Except.ok out)

/-- `_process_excel` (lines 116-141) with the store state kept observable: the
workbook and all its rows are materialised into a list (lines 127-134) before
`_process_rows` runs, so a load failure leaves the store untouched and no Excel
error can occur mid-run. -/
def processExcelLazy {σ : Type} (ops : ExternalOps σ)
    (loadWorkbook : List Byte → Except String ExcelSheet) (mode : ImportMode)
    (s : σ) (content : List Byte) : σ × Except String (Notification × String) :=
  match loadWorkbook content with
  | Except.error e => (s, Except.error (msgInvalidExcelPre ++ e))
  | Except.ok sheet =>
    let r := processRows ops mode s (excelDicts sheet)
    (r.1, Except.ok r.2)

/-- `process_file` (lines 53-83) in the same state-observable form: identical checks
and message wrapping as `processFile`, which it refines by returning the final store
even when the invocation raises, so that writes performed before a fatal error stay
visible. -/
def processFileLazy {σ : Type} (ops : ExternalOps σ) (excelSupport : Bool)
    (loadWorkbook : List Byte → Except String ExcelSheet)
    (reader : ExternalCsvReader) (mode : ImportMode) (s : σ)
    (fileName : CellVal) (content : List Byte) :
    σ × Except String (Notification × String) :=
  if !(truthy fileName) then (s, Except.error msgUploadFile)
  else
    match computeFileType fileName with
    | none =>
      (s, Except.error (msgUnsupportedPre ++ lastDotPart (strOf fileName) ++ msgUnsupportedPost))
    | some ft =>
      if ft = FileType.xlsx ∧ excelSupport = false then (s, Except.error msgNeedOpenpyxl)
      else
        let r :=
          match ft with
          | FileType.csv => processCsvLazy ops reader mode s content
          | FileType.xlsx => processExcelLazy ops loadWorkbook mode s content
        match r.2 with
        | Except.error e => (r.1, Except.error (msgFailedFilePre ++ e))
        | Except.ok out => (r.1, Except.ok out)

/-- The faithful never-raising reader: exactly the embedded total parse. -/
def totalReader : ExternalCsvReader := fun text => (csvDicts text, none)

/-- Detail string of the `csv.Error` Python raises on an oversized field. -/
def fieldLimitMsg : String := "field larger than field limit (131072)"

/-- A reader for a file whose first data row is fine and whose next record is
structurally corrupt (e.g. one oversized field): `DictReader` yields the good row,
then raises. -/
def midFailReader : ExternalCsvReader := fun _ => ([rowAlice], some fieldLimitMsg)

/-- A reader whose very first `next()` raises: the corrupt record precedes any row. -/
def earlyFailReader : ExternalCsvReader := fun _ => ([], some fieldLimitMsg)

/-- A partner create that always raises (an external failure during the create call). -/
def failingCreateOps : ExternalOps Store :=
  { storeOps with createPartner := fun _ _ => Except.error boomMsg }

/-! ### Shared lemmas -/

/-- A row with a truthy value under some key has a non-empty-valued entry. -/
theorem rowNonBlank_of_get (row : RawRow) (k : String)
    (h : truthy (rowGet row k) = true) : rowNonBlank row = true := by
  unfold rowGet at h
  rcases hf : row.find? (fun p => p.1 = k) with _ | p
  · rw [hf] at h
    simp [truthy] at h
  · rw [hf] at h
    exact List.any_eq_true.2 ⟨p, List.mem_of_find?_eq_some hf, h⟩

/-- `_get_country` through the concrete store never raises and computes
`storeCountryId`. -/
theorem getCountry_storeOps (st : Store) (cn : CellVal) :
    getCountry storeOps st cn = Except.ok (storeCountryId st cn) := by
  unfold getCountry storeOps storeCountryId
  cases h : truthy cn
  · simp [h]
  · simp [h, Except.map]

/-- One loop step of `processRowsAux`. -/
theorem processRowsAux_cons {σ : Type} (ops : ExternalOps σ) (mode : ImportMode)
    (s : σ) (idx : Nat) (row : RawRow) (rest : List RawRow) :
    processRowsAux ops mode s idx (row :: rest) =
      ((processRowsAux ops mode (processRow ops mode s idx row).1 (idx + 1) rest).1,
        (processRow ops mode s idx row).2 ::
          (processRowsAux ops mode (processRow ops mode s idx row).1 (idx + 1) rest).2) := rfl

/-- The `created` tally is the number of `created` outcomes. -/
theorem foldl_stepAcc_created (outs : List RowOutcome) :
    ∀ acc : RunAcc, (List.foldl stepAcc acc outs).created
      = acc.created + List.countP isCreatedOutcome outs := by
  induction outs with
  | nil => intro acc; simp
  | cons o rest ih =>
    intro acc
    rw [List.foldl_cons, ih, List.countP_cons]
    cases o <;> (simp [stepAcc, isCreatedOutcome]; try omega)

/-- The `updated` tally is the number of `updated` outcomes. -/
theorem foldl_stepAcc_updated (outs : List RowOutcome) :
    ∀ acc : RunAcc, (List.foldl stepAcc acc outs).updated
      = acc.updated + List.countP isUpdatedOutcome outs := by
  induction outs with
  | nil => intro acc; simp
  | cons o rest ih =>
    intro acc
    rw [List.foldl_cons, ih, List.countP_cons]
    cases o <;> (simp [stepAcc, isUpdatedOutcome]; try omega)

/-- The `errors` tally collects the skip/failure messages in row order. -/
theorem foldl_stepAcc_errors (outs : List RowOutcome) :
    ∀ acc : RunAcc, (List.foldl stepAcc acc outs).errors
      = acc.errors ++ List.filterMap outcomeMsg outs := by
  induction outs with
  | nil => intro acc; simp
  | cons o rest ih =>
    intro acc
    rw [List.foldl_cons, ih, List.filterMap_cons]
    cases o <;> simp [stepAcc, outcomeMsg]

/-- The three tallies of a whole run, via `runAcc`. -/
theorem runAcc_spec (outs : List RowOutcome) :
    (runAcc outs).created = List.countP isCreatedOutcome outs
    ∧ (runAcc outs).updated = List.countP isUpdatedOutcome outs
    ∧ (runAcc outs).errors = List.filterMap outcomeMsg outs := by
  unfold runAcc
  refine ⟨?_, ?_, ?_⟩
  · rw [foldl_stepAcc_created]
    simp
  · rw [foldl_stepAcc_updated]
    simp
  · rw [foldl_stepAcc_errors]
    rfl

/-! ### Claims -/

/-- C10: for every byte sequence, CSV text decoding succeeds at or before the Latin-1
attempt (Latin-1 maps every byte to a character), so the branch raising the total
encoding failure is unreachable: decoding never fails, and when strict UTF-8 fails
the result is exactly the total Latin-1 decoding. -/
theorem csv_decoding_never_fails (bs : List Byte) :
    decodeCsvText bs = Except.ok ((utf8SigDecode bs).getD (latin1Decode bs)) := by
  unfold decodeCsvText
  cases h : utf8SigDecode bs
  · simp [firstSuccess, latin1DecodeOpt]
  · simp

/-- C2 counterexample: a `.csv` file whose first data row is valid and whose next
record raises the `csv` module's field-size `csv.Error`: `process_file` does raise
the wrapped decode failure, but only after the first row was already processed —
the store afterwards holds a newly created record, so the run did not short-circuit
before any row and records were created. -/
theorem csv_error_after_write :
    processFileLazy storeOps true badLoad midFailReader ImportMode.create store0
        (some csvName) []
      = (createInStore store0
          (mkVals rowAlice (storeCountryId store0 (rowGet rowAlice kCountry))),
        Except.error (msgFailedFilePre ++ (msgInvalidCsvPre ++ fieldLimitMsg)))
    ∧ createInStore store0
        (mkVals rowAlice (storeCountryId store0 (rowGet rowAlice kCountry)))
      ≠ store0 := by
  constructor
  · rfl
  · decide

/-- C2 amended: a recognized-extension file with structurally corrupt content makes
`process_file` fail with the wrapped fatal decode error.  For a corrupt `.xlsx` the
workbook load fails before any row, uniformly in the ops, with the store exactly
unchanged.  For CSV the text-decoding stage never fails (last conjunct), and a
structural `csv.Error` is raised lazily by the reader only when the loop reaches
the corrupt record: the store afterwards is the one left by processing every
previously yielded row — writes included — so the failure short-circuits before any
row exactly when the corrupt record precedes the first yielded row (third
conjunct). -/
theorem corrupt_file_decode_errors {σ : Type} (ops : ExternalOps σ) (mode : ImportMode)
    (s : σ) (load : List Byte → Except String ExcelSheet) (reader : ExternalCsvReader)
    (content : List Byte) (fn : CellVal) :
    (∀ e, truthy fn = true → computeFileType fn = some FileType.xlsx →
      load content = Except.error e →
      processFileLazy ops true load reader mode s fn content =
        (s, Except.error (msgFailedFilePre ++ (msgInvalidExcelPre ++ e))))
    ∧ (∀ es rows e text, truthy fn = true → computeFileType fn = some FileType.csv →
      decodeCsvText content = Except.ok text →
      reader text = (rows, some e) →
      processFileLazy ops es load reader mode s fn content =
        ((processRowsAux ops mode s 2 rows).1,
          Except.error (msgFailedFilePre ++ (msgInvalidCsvPre ++ e))))
    ∧ (∀ es e text, truthy fn = true → computeFileType fn = some FileType.csv →
      decodeCsvText content = Except.ok text →
      reader text = ([], some e) →
      processFileLazy ops es load reader mode s fn content =
        (s, Except.error (msgFailedFilePre ++ (msgInvalidCsvPre ++ e))))
    ∧ (∃ t, decodeCsvText content = Except.ok t) := by
  refine ⟨?_, ?_, ?_, ?_⟩
  · intro e ht hft hl
    simp [processFileLazy, ht, hft, processExcelLazy, hl]
  · intro es rows e text ht hft hd hr
    simp [processFileLazy, ht, hft, processCsvLazy, hd, hr, processRowsLazy]
  · intro es e text ht hft hd hr
    simp [processFileLazy, ht, hft, processCsvLazy, hd, hr, processRowsLazy,
      processRowsAux]
  · unfold decodeCsvText
    cases h : utf8SigDecode content
    · exact ⟨latin1Decode content, by simp [firstSuccess, latin1DecodeOpt]⟩
    · exact ⟨_, rfl⟩

/-- Witness for C2 amended: the corrupt record precedes any data row, so the run
short-circuits with the store untouched. -/
theorem corrupt_file_decode_errors_witness :
    processFileLazy storeOps true badLoad earlyFailReader ImportMode.create store0
        (some csvName) []
      = (store0, Except.error (msgFailedFilePre ++ (msgInvalidCsvPre ++ fieldLimitMsg))) :=
  (corrupt_file_decode_errors storeOps ImportMode.create store0 badLoad earlyFailReader
    [] (some csvName)).2.2.1 true fieldLimitMsg emptyStr (by decide) (by decide)
    (by rfl) (by rfl)

/-- Coherence of the two forms of `process_file`: with the faithful never-raising
reader, the state-observable `processFileLazy` agrees with `processFile` — same
successes, same error messages, and a fatal error leaves the store untouched. -/
theorem processFileLazy_totalReader {σ : Type} (ops : ExternalOps σ) (es : Bool)
    (load : List Byte → Except String ExcelSheet) (mode : ImportMode) (s : σ)
    (fn : CellVal) (content : List Byte) :
    processFileLazy ops es load totalReader mode s fn content
      = match processFile ops es load mode s fn content with
        | Except.ok r => (r.1, Except.ok r.2)
        | Except.error e => (s, Except.error e) := by
  unfold processFileLazy processFile
  cases ht : truthy fn
  · simp
  · cases hft : computeFileType fn with
    | none => simp [ht, hft]
    | some ft =>
      cases ft with
      | xlsx =>
        cases es
        · simp [ht, hft]
        · cases hl : load content with
          | error e => simp [ht, hft, hl, processExcelLazy, processExcel]
          | ok sheet => simp [ht, hft, hl, processExcelLazy, processExcel]
      | csv =>
        cases hd : decodeCsvText content with
        | error m => simp [ht, hft, hd, processCsvLazy, processCsv]
        | ok text =>
          simp [ht, hft, hd, processCsvLazy, processCsv, totalReader, processRowsLazy,
            processRows]

/-- C3: a non-blank row with a falsy name or email yields exactly the failed outcome
with the source's message (echoing the partial values), leaves the store untouched
for every ops, and the rest of the file processes exactly as it would from the same
store and the next row number. -/
theorem missing_required_field_row {σ : Type} (ops : ExternalOps σ) (mode : ImportMode)
    (s : σ) (idx : Nat) (row : RawRow) (rest : List RawRow)
    (hnb : rowNonBlank row = true)
    (hmiss : truthy (rowGet row kName) = false ∨ truthy (rowGet row kEmail) = false) :
    processRow ops mode s idx row = (s, RowOutcome.failed (missingMsg idx row))
    ∧ processRowsAux ops mode s idx (row :: rest) =
        ((processRowsAux ops mode s (idx + 1) rest).1,
          RowOutcome.failed (missingMsg idx row)
            :: (processRowsAux ops mode s (idx + 1) rest).2) := by
  have h1 : processRow ops mode s idx row = (s, RowOutcome.failed (missingMsg idx row)) := by
    rcases hmiss with h | h
    · simp [processRow, hnb, h]
    · simp [processRow, hnb, h]
  refine ⟨h1, ?_⟩
  rw [processRowsAux_cons, h1]

/-- Witness for C3. -/
theorem missing_required_field_row_witness :
    processRow storeOps ImportMode.create store0 2 rowNoEmail
      = (store0, RowOutcome.failed (missingMsg 2 rowNoEmail)) :=
  (missing_required_field_row storeOps ImportMode.create store0 2 rowNoEmail []
    (by decide) (Or.inr (by decide))).1

/-- C6 counterexample: in the spreadsheet path the all-blank data row at visible
line 3 is dropped before `enumerate`, so the failing `Bob` row at visible line 4 is
reported as `Row 3`, not `Row 4` as the claim requires. -/
theorem excel_blank_row_shifts_numbering :
    (processRowsAux storeOps ImportMode.create store0 2 (excelDicts scenarioSheet)).2
      = [RowOutcome.created, RowOutcome.failed row3msg]
    ∧ row3msg ≠ row4msg :=
  ⟨by decide, by decide⟩

/-- C6 amended: each yielded row gets exactly one outcome, numbered 2, 3, ... in
sequence order, so the reported number equals the visible line number whenever the
decoder yields one row per data line: in the spec's CSV scenario the empty-field
blank line keeps its number (a `blank` outcome) and `Bob` is reported at his
visible line 4.  Rows the spreadsheet decoder drops (and CSV lines with no fields
at all, skipped by `DictReader`) do not occupy a number, shifting later rows. -/
theorem row_numbering_amended :
    (∀ (σ : Type) (ops : ExternalOps σ) (mode : ImportMode) (s : σ) (idx : Nat)
      (rows : List RawRow), (processRowsAux ops mode s idx rows).2.length = rows.length)
    ∧ (processRowsAux storeOps ImportMode.create store0 2 (csvDicts scenarioCsv)).2
        = [RowOutcome.created, RowOutcome.blank, RowOutcome.failed row4msg] := by
  constructor
  · intro σ ops mode s idx rows
    induction rows generalizing s idx with
    | nil => rfl
    | cons r rest ih => simp [processRowsAux_cons, ih]
  · decide

/-- C8 counterexample: with a missing (or empty) filename, `process_file` fails with
`Please upload a file.` — it does not run the CSV path, although that path would
succeed on the same content. -/
theorem empty_filename_rejected :
    processFile storeOps true badLoad ImportMode.create store0 none []
      = Except.error msgUploadFile
    ∧ processFile storeOps true badLoad ImportMode.create store0 (some emptyStr) []
      = Except.error msgUploadFile
    ∧ processCsv storeOps ImportMode.create store0 []
      = Except.ok (processRows storeOps ImportMode.create store0 (csvDicts emptyStr)) :=
  ⟨rfl, rfl, rfl⟩

/-- C8 amended: the `'csv'` default for a falsy filename exists only in
`_compute_file_type`; `process_file` itself rejects an empty or missing filename
with `Please upload a file.` before any decoding, rejects a non-empty filename with
an unrecognized extension as unsupported, and dispatches a recognized `.csv` name
to the CSV path. -/
theorem filename_dispatch_amended {σ : Type} (ops : ExternalOps σ) (es : Bool)
    (load : List Byte → Except String ExcelSheet) (mode : ImportMode) (s : σ)
    (content : List Byte) :
    computeFileType none = some FileType.csv
    ∧ computeFileType (some emptyStr) = some FileType.csv
    ∧ processFile ops es load mode s none content = Except.error msgUploadFile
    ∧ processFile ops es load mode s (some emptyStr) content = Except.error msgUploadFile
    ∧ (∀ nm, truthy (some nm) = true → computeFileType (some nm) = none →
        processFile ops es load mode s (some nm) content =
          Except.error (msgUnsupportedPre ++ lastDotPart nm ++ msgUnsupportedPost))
    ∧ computeFileType (some csvName) = some FileType.csv
    ∧ processFile ops es load mode s (some csvName) content =
        (match processCsv ops mode s content with
         | Except.error e => Except.error (msgFailedFilePre ++ e)
         | Except.ok r => Except.ok r) := by
  have ht : truthy (some csvName) = true := by decide
  have hft : computeFileType (some csvName) = some FileType.csv := by decide
  refine ⟨by decide, by decide, rfl, rfl, ?_, hft, ?_⟩
  · intro nm htn hftn
    simp [processFile, htn, hftn, strOf]
  · simp [processFile, ht, hft]

/-- Witness for C8 amended: an unrecognized `.txt` name is rejected as unsupported. -/
theorem filename_dispatch_amended_witness :
    processFile storeOps true badLoad ImportMode.create store0 (some txtName) []
      = Except.error (msgUnsupportedPre ++ lastDotPart txtName ++ msgUnsupportedPost) :=
  ((filename_dispatch_amended storeOps true badLoad ImportMode.create store0
    []).2.2.2.2.1) txtName (by decide) (by decide)

/-- Reduction of a validated row against the concrete store when the email lookup
finds an existing partner. -/
theorem processRow_storeOps_some (st : Store) (mode : ImportMode) (idx : Nat)
    (row : RawRow) (p : Partner)
    (hname : truthy (rowGet row kName) = true)
    (hemail : truthy (rowGet row kEmail) = true)
    (hfind : findPartner st (strOf (rowGet row kEmail)) = some p) :
    processRow storeOps mode st idx row =
      if mode = ImportMode.update ∨ mode = ImportMode.both then
        (writeInStore st p.id (mkVals row (storeCountryId st (rowGet row kCountry))),
          RowOutcome.updated)
      else (st, RowOutcome.skipped (skipMsg idx (strOf (rowGet row kEmail)))) := by
  have hnb := rowNonBlank_of_get row kName hname
  simp only [processRow, hnb, hname, hemail, Bool.not_true, Bool.or_self, Bool.false_or,
    Bool.or_false, if_false]
  rw [getCountry_storeOps]
  simp only [storeOps]
  rw [hfind]
  by_cases hm : mode = ImportMode.update ∨ mode = ImportMode.both
  · simp [hm]
  · simp [hm]

/-- Reduction of a validated row against the concrete store when no partner matches. -/
theorem processRow_storeOps_none (st : Store) (mode : ImportMode) (idx : Nat)
    (row : RawRow)
    (hname : truthy (rowGet row kName) = true)
    (hemail : truthy (rowGet row kEmail) = true)
    (hfind : findPartner st (strOf (rowGet row kEmail)) = none) :
    processRow storeOps mode st idx row =
      if mode = ImportMode.create ∨ mode = ImportMode.both then
        (createInStore st (mkVals row (storeCountryId st (rowGet row kCountry))),
          RowOutcome.created)
      else (st, RowOutcome.skipped (skipMsg idx (strOf (rowGet row kEmail)))) := by
  have hnb := rowNonBlank_of_get row kName hname
  simp only [processRow, hnb, hname, hemail, Bool.not_true, Bool.or_self, Bool.false_or,
    Bool.or_false, if_false]
  rw [getCountry_storeOps]
  simp only [storeOps]
  rw [hfind]
  by_cases hm : mode = ImportMode.create ∨ mode = ImportMode.both
  · simp [hm]
  · simp [hm]

/-- C1: the 6-entry upsert decision table for every validated row over the concrete
store: with no existing match, Create and Both create (outcome created, the store
becomes `createInStore`) while Update skips; with an existing match, Update and Both
update it (the store becomes `writeInStore`) while Create skips; in the two skip
cells the store is returned exactly unchanged, so a write occurs iff the outcome is
created or updated. -/
theorem upsert_decision_table (st : Store) (mode : ImportMode) (idx : Nat) (row : RawRow)
    (hname : truthy (rowGet row kName) = true)
    (hemail : truthy (rowGet row kEmail) = true) :
    (findPartner st (strOf (rowGet row kEmail)) = none →
      ((mode = ImportMode.create ∨ mode = ImportMode.both →
        processRow storeOps mode st idx row =
          (createInStore st (mkVals row (storeCountryId st (rowGet row kCountry))),
            RowOutcome.created))
        ∧ (mode = ImportMode.update →
          processRow storeOps mode st idx row =
            (st, RowOutcome.skipped (skipMsg idx (strOf (rowGet row kEmail)))))))
    ∧ (∀ p, findPartner st (strOf (rowGet row kEmail)) = some p →
      ((mode = ImportMode.update ∨ mode = ImportMode.both →
        processRow storeOps mode st idx row =
          (writeInStore st p.id (mkVals row (storeCountryId st (rowGet row kCountry))),
            RowOutcome.updated))
        ∧ (mode = ImportMode.create →
          processRow storeOps mode st idx row =
            (st, RowOutcome.skipped (skipMsg idx (strOf (rowGet row kEmail))))))) := by
  constructor
  · intro hfind
    constructor
    · intro hm
      rw [processRow_storeOps_none st mode idx row hname hemail hfind, if_pos hm]
    · intro hm
      subst hm
      rw [processRow_storeOps_none st ImportMode.update idx row hname hemail hfind,
        if_neg (by simp)]
  · intro p hfind
    constructor
    · intro hm
      rw [processRow_storeOps_some st mode idx row p hname hemail hfind, if_pos hm]
    · intro hm
      subst hm
      rw [processRow_storeOps_some st ImportMode.create idx row p hname hemail hfind,
        if_neg (by simp)]

/-- Witness for C1: a fresh email in Create mode is created. -/
theorem upsert_decision_table_witness :
    processRow storeOps ImportMode.create store0 2 rowAlice
      = (createInStore store0
          (mkVals rowAlice (storeCountryId store0 (rowGet rowAlice kCountry))),
        RowOutcome.created) :=
  ((upsert_decision_table store0 ImportMode.create 2 rowAlice (by decide) (by decide)).1
    (by decide)).1 (Or.inl rfl)

/-- C9: an update sends all seven mapped fields: the store becomes `writeInStore`
with the row's `mkVals`, and afterwards every record with the matched id carries
exactly the row's values — an optional column absent from the row (`rowGet` gives
none, i.e. empty) overwrites whatever the record previously held. -/
theorem update_writes_all_fields (st : Store) (mode : ImportMode) (idx : Nat)
    (row : RawRow) (p : Partner)
    (hname : truthy (rowGet row kName) = true)
    (hemail : truthy (rowGet row kEmail) = true)
    (hmode : mode = ImportMode.update ∨ mode = ImportMode.both)
    (hfind : findPartner st (strOf (rowGet row kEmail)) = some p) :
    processRow storeOps mode st idx row =
      (writeInStore st p.id (mkVals row (storeCountryId st (rowGet row kCountry))),
        RowOutcome.updated)
    ∧ ∀ q ∈ (writeInStore st p.id
        (mkVals row (storeCountryId st (rowGet row kCountry)))).partners,
        q.id = p.id →
        q.name = some (strOf (rowGet row kName))
        ∧ q.email = some (strOf (rowGet row kEmail))
        ∧ q.phone = rowGet row kPhone
        ∧ q.street = rowGet row kStreet
        ∧ q.city = rowGet row kCity
        ∧ q.zip = rowGet row kZip
        ∧ q.country_id = storeCountryId st (rowGet row kCountry) := by
  refine ⟨by rw [processRow_storeOps_some st mode idx row p hname hemail hfind,
    if_pos hmode], ?_⟩
  intro q hq hid
  unfold writeInStore at hq
  simp only [List.mem_map] at hq
  rcases hq with ⟨q0, hq0, rfl⟩
  by_cases h0 : q0.id = p.id
  · simp [h0, mkVals]
  · rw [if_neg h0] at hid
    exact absurd hid h0

/-- Witness for C9: updating `partnerBob` from a row with no optional columns. -/
theorem update_writes_all_fields_witness :
    processRow storeOps ImportMode.update store1 2 rowBobUpdate
      = (writeInStore store1 partnerBob.id
          (mkVals rowBobUpdate (storeCountryId store1 (rowGet rowBobUpdate kCountry))),
        RowOutcome.updated) :=
  (update_writes_all_fields store1 ImportMode.update 2 rowBobUpdate partnerBob
    (by decide) (by decide) (Or.inl rfl) (by decide)).1

/-- C4: the loop step equation holds for every ops (each row hands control to the
next, no exception escapes the row boundary), and for a validated row the result is
exhaustively one of: a failed outcome carrying `Row {n}: Error processing - {e}` for
some raised detail `e` with the store untouched, a successful create, a successful
update, or the mode skip.  Each of the four external calls is pinned individually:
a raising country lookup, a raising partner search, a raising create (no existing
match, creating mode) and a raising write (existing match, updating mode) each
produce exactly that failed outcome with the store untouched. -/
theorem row_exception_contained {σ : Type} (ops : ExternalOps σ) (mode : ImportMode)
    (s : σ) (idx : Nat) (row : RawRow) (rest : List RawRow) :
    processRowsAux ops mode s idx (row :: rest) =
      ((processRowsAux ops mode (processRow ops mode s idx row).1 (idx + 1) rest).1,
        (processRow ops mode s idx row).2 ::
          (processRowsAux ops mode (processRow ops mode s idx row).1 (idx + 1) rest).2)
    ∧ (rowNonBlank row = true → truthy (rowGet row kName) = true →
        truthy (rowGet row kEmail) = true →
        ((∃ e, processRow ops mode s idx row = (s, RowOutcome.failed (errorRowMsg idx e)))
          ∨ (∃ s2, processRow ops mode s idx row = (s2, RowOutcome.created))
          ∨ (∃ s2, processRow ops mode s idx row = (s2, RowOutcome.updated))
          ∨ processRow ops mode s idx row
              = (s, RowOutcome.skipped (skipMsg idx (strOf (rowGet row kEmail))))))
    ∧ (rowNonBlank row = true → truthy (rowGet row kName) = true →
        truthy (rowGet row kEmail) = true →
        ∀ e, getCountry ops s (rowGet row kCountry) = Except.error e →
          processRow ops mode s idx row = (s, RowOutcome.failed (errorRowMsg idx e)))
    ∧ (rowNonBlank row = true → truthy (rowGet row kName) = true →
        truthy (rowGet row kEmail) = true →
        ∀ cid e, getCountry ops s (rowGet row kCountry) = Except.ok cid →
          ops.searchPartner s (strOf (rowGet row kEmail)) = Except.error e →
          processRow ops mode s idx row = (s, RowOutcome.failed (errorRowMsg idx e)))
    ∧ (rowNonBlank row = true → truthy (rowGet row kName) = true →
        truthy (rowGet row kEmail) = true →
        ∀ cid e, getCountry ops s (rowGet row kCountry) = Except.ok cid →
          ops.searchPartner s (strOf (rowGet row kEmail)) = Except.ok none →
          (mode = ImportMode.create ∨ mode = ImportMode.both) →
          ops.createPartner s (mkVals row cid) = Except.error e →
          processRow ops mode s idx row = (s, RowOutcome.failed (errorRowMsg idx e)))
    ∧ (rowNonBlank row = true → truthy (rowGet row kName) = true →
        truthy (rowGet row kEmail) = true →
        ∀ cid e p, getCountry ops s (rowGet row kCountry) = Except.ok cid →
          ops.searchPartner s (strOf (rowGet row kEmail)) = Except.ok (some p) →
          (mode = ImportMode.update ∨ mode = ImportMode.both) →
          ops.writePartner s p.id (mkVals row cid) = Except.error e →
          processRow ops mode s idx row = (s, RowOutcome.failed (errorRowMsg idx e))) := by
  refine ⟨rfl, ?_, ?_, ?_, ?_, ?_⟩
  · intro hnb hn he
    rcases hg : getCountry ops s (rowGet row kCountry) with e | cid
    · exact Or.inl ⟨e, by simp [processRow, hnb, hn, he, hg]⟩
    · rcases hs : ops.searchPartner s (strOf (rowGet row kEmail)) with e | op
      · exact Or.inl ⟨e, by simp [processRow, hnb, hn, he, hg, hs]⟩
      · rcases op with _ | p
        · cases mode with
          | create =>
            rcases hc : ops.createPartner s (mkVals row cid) with e | s2
            · exact Or.inl ⟨e, by simp [processRow, hnb, hn, he, hg, hs, hc]⟩
            · exact Or.inr (Or.inl ⟨s2, by simp [processRow, hnb, hn, he, hg, hs, hc]⟩)
          | update =>
            exact Or.inr (Or.inr (Or.inr (by simp [processRow, hnb, hn, he, hg, hs])))
          | both =>
            rcases hc : ops.createPartner s (mkVals row cid) with e | s2
            · exact Or.inl ⟨e, by simp [processRow, hnb, hn, he, hg, hs, hc]⟩
            · exact Or.inr (Or.inl ⟨s2, by simp [processRow, hnb, hn, he, hg, hs, hc]⟩)
        · cases mode with
          | create =>
            exact Or.inr (Or.inr (Or.inr (by simp [processRow, hnb, hn, he, hg, hs])))
          | update =>
            rcases hw : ops.writePartner s p.id (mkVals row cid) with e | s2
            · exact Or.inl ⟨e, by simp [processRow, hnb, hn, he, hg, hs, hw]⟩
            · exact Or.inr (Or.inr (Or.inl ⟨s2, by simp [processRow, hnb, hn, he, hg, hs, hw]⟩))
          | both =>
            rcases hw : ops.writePartner s p.id (mkVals row cid) with e | s2
            · exact Or.inl ⟨e, by simp [processRow, hnb, hn, he, hg, hs, hw]⟩
            · exact Or.inr (Or.inr (Or.inl ⟨s2, by simp [processRow, hnb, hn, he, hg, hs, hw]⟩))
  · intro hnb hn he e hg
    simp [processRow, hnb, hn, he, hg]
  · intro hnb hn he cid e hg hs
    simp [processRow, hnb, hn, he, hg, hs]
  · intro hnb hn he cid e hg hs hm hc
    rcases hm with rfl | rfl
    · simp [processRow, hnb, hn, he, hg, hs, hc]
    · simp [processRow, hnb, hn, he, hg, hs, hc]
  · intro hnb hn he cid e p hg hs hm hw
    rcases hm with rfl | rfl
    · simp [processRow, hnb, hn, he, hg, hs, hw]
    · simp [processRow, hnb, hn, he, hg, hs, hw]

/-- Witness for C4: a raising create call on a validated fresh row is converted to
the failed outcome with the exact message and an untouched store. -/
theorem row_exception_contained_witness :
    processRow failingCreateOps ImportMode.create store0 2 rowAlice
      = (store0, RowOutcome.failed (errorRowMsg 2 boomMsg)) :=
  (row_exception_contained failingCreateOps ImportMode.create store0 2 rowAlice
    []).2.2.2.2.1 (by decide) (by decide) (by decide) none boomMsg (by rfl) (by rfl)
    (Or.inl rfl) (by rfl)

/-- C5: for every run, the displayed notification and the logged text are built from
tallies that count exactly the created/updated outcomes and collect exactly the
skip/failure messages in row order; a non-empty message list gives a sticky warning
whose text carries the summary, the total count, the first 3 messages verbatim and
`...and {k} more errors` exactly when more than 3 exist; an empty list gives a
non-sticky success; and the log always carries the summary plus every message. -/
theorem final_report_shape {σ : Type} (ops : ExternalOps σ) (mode : ImportMode) (s : σ)
    (rows : List RawRow) :
    (processRows ops mode s rows).2.1
      = buildNotification
          (List.countP isCreatedOutcome (processRowsAux ops mode s 2 rows).2)
          (List.countP isUpdatedOutcome (processRowsAux ops mode s 2 rows).2)
          (List.filterMap outcomeMsg (processRowsAux ops mode s 2 rows).2)
    ∧ (processRows ops mode s rows).2.2
      = logMessage
          (List.countP isCreatedOutcome (processRowsAux ops mode s 2 rows).2)
          (List.countP isUpdatedOutcome (processRowsAux ops mode s 2 rows).2)
          (List.filterMap outcomeMsg (processRowsAux ops mode s 2 rows).2)
    ∧ (∀ c u (msgs : List String), msgs = [] →
        buildNotification c u msgs
          = { title := "Import Successful", message := baseMessage c u,
              sticky := false, ntype := successType })
    ∧ (∀ c u (msgs : List String), msgs ≠ [] → msgs.length ≤ 3 →
        buildNotification c u msgs
          = { title := "Import Completed with Errors",
              message := baseMessage c u ++ "\n\n" ++ "Errors encountered: "
                ++ toString msgs.length ++ "\n" ++ String.intercalate nl (msgs.take 3),
              sticky := true, ntype := warningType })
    ∧ (∀ c u (msgs : List String), 3 < msgs.length →
        buildNotification c u msgs
          = { title := "Import Completed with Errors",
              message := baseMessage c u ++ "\n\n" ++ "Errors encountered: "
                ++ toString msgs.length ++ "\n"
                ++ (String.intercalate nl (msgs.take 3) ++ "\n...and "
                  ++ toString (msgs.length - 3) ++ " more errors"),
              sticky := true, ntype := warningType })
    ∧ (∀ c u (msgs : List String),
        logMessage c u msgs
          = "Partner Import Results:\n" ++ baseMessage c u ++ nl
            ++ (if msgs.isEmpty then emptyStr
                else errorsHeader ++ String.intercalate nl msgs)) := by
  obtain ⟨hc, hu, he⟩ := runAcc_spec (processRowsAux ops mode s 2 rows).2
  refine ⟨?_, ?_, ?_, ?_, ?_, ?_⟩
  · show buildNotification (runAcc (processRowsAux ops mode s 2 rows).2).created
      (runAcc (processRowsAux ops mode s 2 rows).2).updated
      (runAcc (processRowsAux ops mode s 2 rows).2).errors = _
    rw [hc, hu, he]
  · show logMessage (runAcc (processRowsAux ops mode s 2 rows).2).created
      (runAcc (processRowsAux ops mode s 2 rows).2).updated
      (runAcc (processRowsAux ops mode s 2 rows).2).errors = _
    rw [hc, hu, he]
  · intro c u msgs hempty
    subst hempty
    rfl
  · intro c u msgs hne hle
    have hnotempty : msgs.isEmpty = false := by
      cases msgs
      · exact absurd rfl hne
      · rfl
    unfold buildNotification
    rw [hnotempty]
    simp only [Bool.false_eq_true, if_false]
    rw [if_neg (by omega)]
  · intro c u msgs hgt
    have hnotempty : msgs.isEmpty = false := by
      cases msgs
      · simp at hgt
      · rfl
    unfold buildNotification
    rw [hnotempty]
    simp only [Bool.false_eq_true, if_false]
    rw [if_pos hgt]
  · intro c u msgs
    rfl

/-- Witness for C5: five row-local errors show the first 3 plus `...and 2 more errors`. -/
theorem final_report_shape_witness :
    buildNotification
        (List.countP isCreatedOutcome
          (processRowsAux storeOps ImportMode.create store0 2 fiveBadRows).2)
        (List.countP isUpdatedOutcome
          (processRowsAux storeOps ImportMode.create store0 2 fiveBadRows).2)
        (List.filterMap outcomeMsg
          (processRowsAux storeOps ImportMode.create store0 2 fiveBadRows).2)
      = { title := "Import Completed with Errors",
          message := baseMessage
              (List.countP isCreatedOutcome
                (processRowsAux storeOps ImportMode.create store0 2 fiveBadRows).2)
              (List.countP isUpdatedOutcome
                (processRowsAux storeOps ImportMode.create store0 2 fiveBadRows).2)
            ++ "\n\n" ++ "Errors encountered: "
            ++ toString (List.filterMap outcomeMsg
                (processRowsAux storeOps ImportMode.create store0 2 fiveBadRows).2).length
            ++ "\n"
            ++ (String.intercalate nl
                ((List.filterMap outcomeMsg
                  (processRowsAux storeOps ImportMode.create store0 2 fiveBadRows).2).take 3)
              ++ "\n...and "
              ++ toString ((List.filterMap outcomeMsg
                  (processRowsAux storeOps ImportMode.create store0 2 fiveBadRows).2).length - 3)
              ++ " more errors"),
          sticky := true, ntype := warningType } :=
  (final_report_shape storeOps ImportMode.create store0 fiveBadRows).2.2.2.2.1
    (List.countP isCreatedOutcome
      (processRowsAux storeOps ImportMode.create store0 2 fiveBadRows).2)
    (List.countP isUpdatedOutcome
      (processRowsAux storeOps ImportMode.create store0 2 fiveBadRows).2)
    (List.filterMap outcomeMsg
      (processRowsAux storeOps ImportMode.create store0 2 fiveBadRows).2)
    (by decide)

/-- A character in the ASCII or upper Latin-1 range is Windows-1252-encoded as its
own code point, which Latin-1 decodes back to the same character. -/
theorem cp1252EncodeChar_latin (c : Char)
    (h : c.toNat < 0x80 ∨ (0xA0 ≤ c.toNat ∧ c.toNat < 0x100)) :
    ∃ b : Byte, cp1252EncodeChar c = some b ∧ Char.ofNat b.val = c := by
  rcases h with h | ⟨h1, h2⟩
  · refine ⟨⟨c.toNat, by omega⟩, ?_, by simp [Char.ofNat_toNat]⟩
    unfold cp1252EncodeChar
    rw [dif_pos h]
  · refine ⟨⟨c.toNat, by omega⟩, ?_, by simp [Char.ofNat_toNat]⟩
    unfold cp1252EncodeChar
    rw [dif_neg (by omega), dif_pos ⟨h1, h2⟩]

/-- Windows-1252 encoding of a text in the Latin-1-compatible range is inverted by
the Latin-1 decoder. -/
theorem cp1252_decodes_as_latin1 : ∀ (l : List Char) (bs : List Byte),
    (∀ c ∈ l, c.toNat < 0x80 ∨ (0xA0 ≤ c.toNat ∧ c.toNat < 0x100)) →
    cp1252EncodeChars l = some bs →
    bs.map (fun b => Char.ofNat b.val) = l := by
  intro l
  induction l with
  | nil =>
    intro bs _ henc
    unfold cp1252EncodeChars at henc
    injection henc with h
    subst h
    rfl
  | cons c cs ih =>
    intro bs hr henc
    obtain ⟨b, hb, hbc⟩ := cp1252EncodeChar_latin c (hr c (by simp))
    unfold cp1252EncodeChars at henc
    rw [hb] at henc
    rcases hrec : cp1252EncodeChars cs with _ | bs2
    · rw [hrec] at henc
      cases henc
    · rw [hrec] at henc
      injection henc with h
      subst h
      simp only [List.map_cons, hbc]
      rw [ih bs2 (fun x hx => hr x (by simp [hx])) hrec]

/-- UTF-8 encoding of an ASCII character. -/
theorem utf8EncodeChar_ascii (c : Char) (h : c.toNat < 0x80) :
    utf8EncodeChar c = [⟨c.toNat, by omega⟩] := by
  unfold utf8EncodeChar
  rw [dif_pos h]

/-- UTF-8 encoding of a two-byte character. -/
theorem utf8EncodeChar_two (c : Char) (h1 : 0x80 ≤ c.toNat) (h2 : c.toNat < 0x800) :
    utf8EncodeChar c
      = [⟨0xC0 + c.toNat / 64, by omega⟩, ⟨0x80 + c.toNat % 64, by omega⟩] := by
  unfold utf8EncodeChar
  rw [dif_neg (by omega), dif_pos h2]

/-- Strict UTF-8 decoding inverts UTF-8 encoding for texts of Latin-1-range
characters, for any sufficient fuel. -/
theorem utf8DecodeAux_encode : ∀ (l : List Char) (fuel : Nat),
    (∀ c ∈ l, c.toNat < 0x100) → (utf8EncodeChars l).length ≤ fuel →
    utf8DecodeAux fuel (utf8EncodeChars l) = some l := by
  intro l
  induction l with
  | nil =>
    intro fuel _ _
    cases fuel
    · rfl
    · rfl
  | cons c cs ih =>
    intro fuel h hfuel
    have hcs : ∀ x ∈ cs, x.toNat < 0x100 := fun x hx => h x (by simp [hx])
    by_cases ha : c.toNat < 0x80
    · have hshape : utf8EncodeChars (c :: cs)
          = ⟨c.toNat, by omega⟩ :: utf8EncodeChars cs := by
        show utf8EncodeChar c ++ utf8EncodeChars cs = _
        rw [utf8EncodeChar_ascii c ha]
        rfl
      rw [hshape] at hfuel ⊢
      rcases fuel with _ | fuel
      · simp at hfuel
      · have hstep : utf8DecodeStep ⟨c.toNat, by omega⟩ (utf8EncodeChars cs)
            = some (c.toNat, 0) := by
          unfold utf8DecodeStep
          simp only [Fin.val_mk]
          rw [if_pos ha]
        simp only [utf8DecodeAux, hstep, List.drop_zero]
        rw [ih fuel hcs (by simp at hfuel; omega)]
        simp [Char.ofNat_toNat]
    · have h100 := h c (by simp)
      have h128 : 0x80 ≤ c.toNat := by omega
      have h800 : c.toNat < 0x800 := by omega
      have hshape : utf8EncodeChars (c :: cs)
          = ⟨0xC0 + c.toNat / 64, by omega⟩ :: ⟨0x80 + c.toNat % 64, by omega⟩
            :: utf8EncodeChars cs := by
        show utf8EncodeChar c ++ utf8EncodeChars cs = _
        rw [utf8EncodeChar_two c h128 h800]
        rfl
      rw [hshape] at hfuel ⊢
      rcases fuel with _ | fuel
      · simp at hfuel
      · have hstep : utf8DecodeStep ⟨0xC0 + c.toNat / 64, by omega⟩
            (⟨0x80 + c.toNat % 64, by omega⟩ :: utf8EncodeChars cs)
            = some (c.toNat, 1) := by
          unfold utf8DecodeStep
          simp only [Fin.val_mk]
          rw [if_neg (by omega), if_neg (by omega), if_pos (by omega)]
          have hcp : (0xC0 + c.toNat / 64 - 0xC0) * 64 + (0x80 + c.toNat % 64 - 0x80)
              = c.toNat := by omega
          simp only [Fin.val_mk, if_pos (by omega : 0x80 ≤ 0x80 + c.toNat % 64
            ∧ 0x80 + c.toNat % 64 < 0xC0), hcp]
        simp only [utf8DecodeAux, hstep, List.drop_succ_cons, List.drop_zero]
        rw [ih fuel hcs (by simp at hfuel; omega)]
        simp [Char.ofNat_toNat]

/-- The encoding of a non-empty Latin-1-range text starts with a byte below `0xEF`,
so it can never start with the byte-order mark. -/
theorem utf8EncodeChars_head_small (c : Char) (cs : List Char) (h : c.toNat < 0x100) :
    ∃ b tl, utf8EncodeChars (c :: cs) = b :: tl ∧ b.val < 0xEF := by
  by_cases ha : c.toNat < 0x80
  · refine ⟨⟨c.toNat, by omega⟩, utf8EncodeChars cs, ?_, by simp; omega⟩
    show utf8EncodeChar c ++ utf8EncodeChars cs = _
    rw [utf8EncodeChar_ascii c ha]
    rfl
  · refine ⟨⟨0xC0 + c.toNat / 64, by omega⟩,
      ⟨0x80 + c.toNat % 64, by omega⟩ :: utf8EncodeChars cs, ?_, by simp; omega⟩
    show utf8EncodeChar c ++ utf8EncodeChars cs = _
    rw [utf8EncodeChar_two c (by omega) (by omega)]
    rfl

/-- The `utf-8-sig` decoder inverts UTF-8 encoding of a Latin-1-range text: no BOM
is stripped and the strict decoding round-trips. -/
theorem utf8SigDecode_encodeStr (t : String) (h : ∀ c ∈ t.data, c.toNat < 0x100) :
    utf8SigDecode (utf8EncodeStr t) = some t := by
  have hbom : ¬((utf8EncodeStr t).take 3 = bomBytes) := by
    intro heq
    rcases ht : t.data with _ | ⟨c, cs⟩
    · rw [utf8EncodeStr, ht] at heq
      simp [utf8EncodeChars, bomBytes] at heq
    · obtain ⟨b, tl, hsh, hb⟩ := utf8EncodeChars_head_small c cs
        (by rw [ht] at h; exact h c (by simp))
      rw [utf8EncodeStr, ht, hsh] at heq
      simp [bomBytes, List.take] at heq
      have hv : b.val = 239 := by
        rw [heq.1]
        decide
      omega
  have hrt : utf8DecodeChars (utf8EncodeChars t.data) = some t.data :=
    utf8DecodeAux_encode t.data (utf8EncodeChars t.data).length h (le_refl _)
  unfold utf8SigDecode
  dsimp only
  rw [if_neg hbom]
  unfold utf8EncodeStr
  rw [hrt]
  rcases t with ⟨data⟩
  rfl

/-- C7 amended: for a text whose non-ASCII characters all lie in the upper Latin-1
range U+00A0..U+00FF (where Windows-1252 agrees with Latin-1) and whose Windows-1252
bytes are not accidentally valid UTF-8, decoding those bytes succeeds — but through
the Latin-1 fallback, which runs before cp1252 and never fails — and yields the same
text, hence exactly the same rows, as decoding the UTF-8 encoding of the text.
Outside that range (a cp1252-only character such as `€`), or when the bytes happen
to be valid UTF-8, the rows differ (see the counterexample). -/
theorem cp1252_latin_range_same_rows (t : String) (bs : List Byte)
    (hna : ∃ c ∈ t.data, 0x80 ≤ c.toNat)
    (hrange : ∀ c ∈ t.data, c.toNat < 0x80 ∨ (0xA0 ≤ c.toNat ∧ c.toNat < 0x100))
    (henc : cp1252EncodeStr t = some bs)
    (hutf : utf8SigDecode bs = none) :
    decodeCsvText bs = Except.ok t
    ∧ decodeCsvText (utf8EncodeStr t) = Except.ok t
    ∧ (decodeCsvText bs).map (fun x => csvDicts x)
        = (decodeCsvText (utf8EncodeStr t)).map (fun x => csvDicts x) := by
  have hr100 : ∀ c ∈ t.data, c.toNat < 0x100 := by
    intro c hc
    rcases hrange c hc with h | h
    · omega
    · omega
  have hlatin : latin1Decode bs = t := by
    unfold latin1Decode
    rw [cp1252_decodes_as_latin1 t.data bs hrange henc]
  have h1 : decodeCsvText bs = Except.ok t := by
    unfold decodeCsvText
    rw [hutf]
    simp [firstSuccess, latin1DecodeOpt, hlatin]
  have h2 : decodeCsvText (utf8EncodeStr t) = Except.ok t := by
    unfold decodeCsvText
    rw [utf8SigDecode_encodeStr t hr100]
  exact ⟨h1, h2, by rw [h1, h2]⟩

/-- Witness for C7 amended: `José` in the Latin-1 range round-trips to identical rows. -/
theorem cp1252_latin_range_same_rows_witness :
    decodeCsvText joseBytes = Except.ok joseText
    ∧ decodeCsvText (utf8EncodeStr joseText) = Except.ok joseText
    ∧ (decodeCsvText joseBytes).map (fun x => csvDicts x)
        = (decodeCsvText (utf8EncodeStr joseText)).map (fun x => csvDicts x) :=
  cp1252_latin_range_same_rows joseText joseBytes (by decide) (by decide) (by decide)
    (by decide)

/-- C7 counterexample: the cp1252-encoded `€` (byte `0x80`) decodes successfully,
but as the Latin-1 control character U+0080, producing different rows than the
UTF-8 equivalent of the same text. -/
theorem cp1252_decode_differs :
    cp1252EncodeStr euroText = some euroBytes
    ∧ (∃ c ∈ euroText.data, 0x80 ≤ c.toNat)
    ∧ decodeCsvText euroBytes = Except.ok latinEuroText
    ∧ decodeCsvText (utf8EncodeStr euroText) = Except.ok euroText
    ∧ csvDicts latinEuroText ≠ csvDicts euroText :=
  ⟨by decide, by decide, by rfl, by rfl, by decide⟩
